import Mathlib

/-!
Shallow embedding of the xcc-roman-number-converter repository
(`src/xcc_roman_converter/{config,numbersx,converter,cache,cli}.py`).
Pure conversion functions are translated directly; the stateful
converter/cache interaction is modelled by explicit state passing, with the
external key-value store abstracted as a function from keys to read
outcomes.  Wall-clock durations are modelled as an explicit parameter.
-/

/-- From `config.py`: the `ROMAN_TO_ARABIC` dict, in insertion order.
Keys are strings: the seven Roman letters plus underscore-prefixed
two-character keys for magnitudes ≥ 5000 (dead data: the converter only
looks up single characters, which never equal a two-character key). -/
def ROMAN_TO_ARABIC : List (String × Nat) :=
  [("I", 1), ("V", 5), ("X", 10), ("L", 50), ("C", 100), ("D", 500), ("M", 1000),
   ("_V", 5000), ("_X", 10000), ("_L", 50000), ("_C", 100000), ("_D", 500000),
   ("_M", 1000000)]

/-- From `config.py`: the `ARABIC_TO_ROMAN` dict, in insertion order
(ascending magnitude), covering the 13 subtractive/additive breakpoints. -/
def ARABIC_TO_ROMAN : List (Nat × String) :=
  [(1, "I"), (4, "IV"), (5, "V"), (9, "IX"), (10, "X"), (40, "XL"), (50, "L"),
   (90, "XC"), (100, "C"), (400, "CD"), (500, "D"), (900, "CM"), (1000, "M")]

/-- Insert a pair into a list sorted by descending first component (helper
for the stable sort below). -/
def insertDescBy (p : Nat × String) : List (Nat × String) → List (Nat × String)
  | [] => [p]
  | q :: qs => if p.1 ≥ q.1 then p :: q :: qs else q :: insertDescBy p qs

/-- Stable insertion sort by descending first component, modelling Python's
`sorted(items, key=lambda x: x[0], reverse=True)`. -/
def sortDesc : List (Nat × String) → List (Nat × String)
  | [] => []
  | p :: ps => insertDescBy p (sortDesc ps)

/-- `converter.py` line 100: `sorted(self.arabic_to_roman.items(),
key=lambda x: x[0], reverse=True)` — the breakpoints in strictly descending
magnitude order. -/
def sortedBreakpoints : List (Nat × String) := sortDesc ARABIC_TO_ROMAN

/-- `converter.py` line 78: `self.roman_to_arabic.get(char, 0)` — dictionary
lookup of a single character (a one-character string in Python) with
default 0. -/
def roman_char_value (c : Char) : Nat :=
  ((ROMAN_TO_ARABIC.lookup (String.singleton c)).getD 0)

/-- The seven single-letter keys of `ROMAN_TO_ARABIC` reachable from a
single-character lookup. -/
def romanLetters : List Char := ['I', 'V', 'X', 'L', 'C', 'D', 'M']

/-- One iteration of the `for char in reversed(input_number)` loop body in
`Converter.convert_to_arabic` (`converter.py` lines 77-84): the state is
`(output, prev_value)`; subtract when the magnitude is strictly smaller
than the previous one, else add; `prev_value` is updated in both
branches. -/
def arabic_step (st : Int × Nat) (c : Char) : Int × Nat :=
  let value := roman_char_value c
  ((if value < st.2 then st.1 - (value : Int) else st.1 + (value : Int)), value)

/-- `Converter.convert_to_arabic` (`converter.py` lines 64-89): right-to-left
scan of the input string; the accumulator `output` starts at 0 and
`prev_value` starts at 0.  (The wall-clock `duration` the Python method also
returns is modelled in the converter state, not here.) -/
def convert_to_arabic (s : String) : Int :=
  (s.data.reverse.foldl arabic_step (0, 0)).1

/-- The `while input_number >= value` inner loop of
`Converter.convert_to_roman` (`converter.py` lines 102-104): append the
token and subtract the magnitude while the remainder is at least the
magnitude.  `fuel` bounds the iteration count to make the recursion
structural; every magnitude in the table is ≥ 1, so the remainder strictly
decreases and `fuel = remainder + 1` is always sufficient. -/
def whileGe (fuel : Nat) (v : Nat) (numeral : String) (n : Nat)
    (acc : List String) : Nat × List String :=
  match fuel with
  | 0 => (n, acc)
  | fuel + 1 =>
    if v ≤ n then whileGe fuel v numeral (n - v) (acc ++ [numeral]) else (n, acc)

/-- The `for value, numeral in sorted(...)` loop of
`Converter.convert_to_roman` (`converter.py` lines 101-104): greedy descent
over the 13 breakpoints in descending magnitude order, threading the
remainder and the list of appended tokens. -/
def greedy_fold (n : Nat) : Nat × List String :=
  sortedBreakpoints.foldl (fun st p => whileGe (st.1 + 1) p.1 p.2 st.1 st.2) (n, [])

/-- `Converter.convert_to_roman` (`converter.py` lines 91-109):
`''.join(roman_numerals)` over the tokens appended by the greedy loop. -/
def convert_to_roman (n : Nat) : String := String.join (greedy_fold n).2

/-- Python's `str.upper()` as used by `RomanNumber.__post_init__`
(`numbersx.py` line 8), character-wise uppercasing (the inputs of interest
are ASCII). -/
def pyUpper (s : String) : String := ⟨s.data.map Char.toUpper⟩

/-- Language of the `M{0,3}` thousands group of the validation pattern
(`numbersx.py` line 20). -/
def thousandsLang : List String := ["", "M", "MM", "MMM"]

/-- Language of the `(CM|CD|D?C{0,3})` hundreds group (`numbersx.py`
line 21). -/
def hundredsLang : List String :=
  ["CM", "CD", "", "C", "CC", "CCC", "D", "DC", "DCC", "DCCC"]

/-- Language of the `(XC|XL|L?X{0,3})` tens group (`numbersx.py` line 22). -/
def tensLang : List String :=
  ["XC", "XL", "", "X", "XX", "XXX", "L", "LX", "LXX", "LXXX"]

/-- Language of the `(IX|IV|V?I{0,3})` units group (`numbersx.py` line 23). -/
def unitsLang : List String :=
  ["IX", "IV", "", "I", "II", "III", "V", "VI", "VII", "VIII"]

/-- Membership in the language of the anchored pattern
`^M{0,3}(CM|CD|D?C{0,3})(XC|XL|L?X{0,3})(IX|IV|V?I{0,3})$`: the string is a
concatenation of one word from each group's finite language.  (For an
anchored concatenation of groups, regex matching with backtracking accepts
exactly the concatenation language.) -/
def matchesRomanPattern (s : String) : Bool :=
  thousandsLang.any fun t =>
    hundredsLang.any fun h =>
      tensLang.any fun te =>
        unitsLang.any fun u => t ++ h ++ te ++ u == s

/-- `RomanNumber.is_valid_roman` (`numbersx.py` lines 13-25):
`bool(re.match(pattern, roman))` with the anchored pattern above.  In
Python `$` also matches just before a trailing newline, hence the second
disjunct. -/
def is_valid_roman (s : String) : Bool :=
  matchesRomanPattern s ||
    (match s.data.getLast? with
     | some c => c == '\n' && matchesRomanPattern (String.mk s.data.dropLast)
     | none => false)

/-- `RomanNumber.__post_init__` (`numbersx.py` lines 7-11): uppercase the
input, then raise `ValueError` unless `is_valid_roman` holds; on success
the dataclass holds the uppercased string. -/
def mkRomanNumber (s : String) : Except String String :=
  let u := pyUpper s
  if is_valid_roman u then Except.ok u
  else Except.error ("Invalid Roman numeral: " ++ u)

/-- A Python value appearing as converter input: an int or a str (the only
shapes the claims need). -/
inductive PyObj
  | int (n : Int)
  | str (s : String)
deriving DecidableEq

/-- Strip leading and trailing whitespace, modelling the stripping done by
Python's `int()` on string arguments. -/
def pyStripWS (l : List Char) : List Char :=
  ((l.dropWhile Char.isWhitespace).reverse.dropWhile Char.isWhitespace).reverse

/-- Decimal value of a digit list. -/
def digitsVal (l : List Char) : Nat :=
  l.foldl (fun a c => a * 10 + (c.toNat - 48)) 0

/-- A nonempty all-digit list parses to its decimal value, otherwise the
parse fails. -/
def parseDigits (l : List Char) : Option Nat :=
  if l ≠ [] ∧ l.all Char.isDigit then some (digitsVal l) else none

/-- Python's `int()` coercion as applied in `ArabicNumber.__post_init__`
(`numbersx.py` line 36): the identity on ints; on strings, stripped optional
sign followed by decimal digits (underscore digit grouping is not modelled —
no claim needs it); anything else raises `ValueError`, modelled as `none`. -/
def pyInt : PyObj → Option Int
  | .int n => some n
  | .str s =>
    match pyStripWS s.data with
    | '+' :: rest => (parseDigits rest).map (fun m => (m : Int))
    | '-' :: rest => (parseDigits rest).map (fun m => -(m : Int))
    | l => (parseDigits l).map (fun m => (m : Int))

/-- The spec's §7 error taxonomy for `ArabicNumber` construction: the code
raises `ValueError` in all cases, distinguished by message; `int()` failure
is the spec's `InvalidType`, the two range checks are the spec's
`OutOfRange`. -/
inductive ValidationError
  | InvalidType (msg : String)
  | OutOfRange (msg : String)
deriving DecidableEq

/-- `ArabicNumber.__post_init__` (`numbersx.py` lines 31-42): coerce with
`int()` (failure is `InvalidType`), then reject values `< 1` and values
`> 3999` with `ValueError` (the spec's `OutOfRange`); the `isinstance`
check after `int()` can never fire and is omitted. -/
def mkArabicNumber (x : PyObj) : Except ValidationError Int :=
  match pyInt x with
  | none => Except.error (ValidationError.InvalidType
      "invalid literal for int() with base 10")
  | some n =>
    if n < 1 then
      Except.error (ValidationError.OutOfRange
        "ArabicNumber must be a positive integer.")
    else if n > 3999 then
      Except.error (ValidationError.OutOfRange
        "Currently only Arabic numbers up to 3999 are supported.")
    else Except.ok n

/-- A value stored in / returned by the cache: conversion outputs are ints
(Roman→Arabic) or strings (Arabic→Roman). -/
inductive PyVal
  | int (n : Int)
  | str (s : String)
deriving DecidableEq

/-- Python truthiness of a cached value: 0 and the empty string are falsy. -/
def pyTruthy : PyVal → Bool
  | .int n => n != 0
  | .str s => s != ""

/-- Outcome of the store read underlying `RedisCache.get` for one key:
a present key whose serialized text parses back, an absent key, an
unreachable store (`is_connected()` false: client `None` or ping failed), a
`redis.RedisError` during the read, or a `json.JSONDecodeError` while
parsing the stored text. -/
inductive ReadOutcome
  | hit (v : PyVal)
  | miss
  | notConnected
  | storeError
  | parseError

/-- `RedisCache.get` (`cache.py` lines 128-152): returns `None` when not
connected; on a present key returns the parsed value (the serialized JSON
text of a stored int or str is never the empty string, so `if value:` holds
exactly when the key is present); returns `None` on a miss; catches
`redis.RedisError` and `json.JSONDecodeError` and returns `None` — no store
failure escapes this method. -/
def redis_get : ReadOutcome → Option PyVal
  | .hit v => some v
  | .miss => none
  | .notConnected => none
  | .storeError => none
  | .parseError => none

/-- The validated converter input (`Converter.__init__` takes a
`RomanNumber` or an `ArabicNumber`): the duck-typed dispatch has exactly
these two variants. -/
inductive ConvInput
  | roman (s : String)
  | arabic (n : Nat)

/-- `Converter._generate_redis_cache_key` (`converter.py` lines 36-42):
`easyconvert:{lowercased type name}:{str(value)}`. -/
def generate_redis_cache_key : ConvInput → String
  | .roman s => "easyconvert:romannumber:" ++ s
  | .arabic n => "easyconvert:arabicnumber:" ++ toString n

/-- The `isinstance` dispatch in `Converter.__init__` (`converter.py`
lines 28-31): a `RomanNumber` goes to `convert_to_arabic`, an
`ArabicNumber` to `convert_to_roman`. -/
def run_conversion : ConvInput → PyVal
  | .roman s => PyVal.int (convert_to_arabic s)
  | .arabic n => PyVal.str (convert_to_roman n)

/-- Observable state of a `Converter` after `__init__`: `output` and
`duration` are the object's fields (`duration` is initialized to 0 and only
written by the compute path); `ranConversion` records whether a conversion
algorithm executed and `wroteCache` whether `cache.set` was invoked — the
instrumentation the spec's §8 cache-transparency property asks for. -/
structure ConvResult where
  output : PyVal
  duration : Nat
  ranConversion : Bool
  wroteCache : Bool
deriving DecidableEq

/-- `Converter.__init__` (`converter.py` lines 13-34) given a usable cache
object: read the cache; `if cached_value:` (truthy hit) store it in
`self.output` and return with `duration` still 0, no conversion, no write;
otherwise run the conversion for the input's variant and call `cache.set`.
`measured` is the wall-clock duration the compute path would measure. -/
def converter_init (store : String → ReadOutcome) (measured : Nat)
    (input : ConvInput) : ConvResult :=
  let cache_key := generate_redis_cache_key input
  match redis_get (store cache_key) with
  | some v =>
    if pyTruthy v then ⟨v, 0, false, false⟩
    else ⟨run_conversion input, measured, true, true⟩
  | none => ⟨run_conversion input, measured, true, true⟩

/-- `Converter.__init__` including the module-level `cache` binding
(`cache.py` lines 275-278): when `CACHE_ENABLED` is unset (its default is
"False"), `cache` is `None` and `cache.get(cache_key)` raises
`AttributeError`, modelled as `Except.error`. -/
def converter_init_module (module_cache : Option (String → ReadOutcome))
    (measured : Nat) (input : ConvInput) : Except String ConvResult :=
  match module_cache with
  | none => Except.error "AttributeError: NoneType object has no attribute get"
  | some store => Except.ok (converter_init store measured input)

/-- The CLI's module-global cache state set by `global_options`
(`cli.py` lines 19-40). -/
structure CliGlobals where
  global_cache_enabled : Bool
  current_cache : Option (String → ReadOutcome)

/-- `global_options` (`cli.py` lines 19-40): the `--no-cache` flag clears
the CLI's `_global_cache_enabled` and `_current_cache` globals; otherwise
they are (re)set to the cache module's global. -/
def global_options (no_cache : Bool)
    (module_cache : Option (String → ReadOutcome)) : CliGlobals :=
  if no_cache then ⟨false, none⟩ else ⟨true, module_cache⟩

/-- The conversion performed by the `arabic` CLI command (`cli.py`
lines 120-151) for a validated input: `global_options` has set the CLI
globals from the `--no-cache` flag, but `Converter` reads the `cache`
module's own global, which the flag never touches; the surrounding
`except ValueError` does not catch an `AttributeError`. -/
def cli_convert_arabic (module_cache : Option (String → ReadOutcome))
    (no_cache : Bool) (measured : Nat) (n : Nat) : Except String ConvResult :=
  let _globals := global_options no_cache module_cache
  converter_init_module module_cache measured (ConvInput.arabic n)

/-- Four identical letters in a row somewhere in the list (the spec's §8
canonical-form property). -/
def hasFourInARow : List Char → Bool
  | a :: b :: c :: d :: rest =>
    (a == b && b == c && c == d) || hasFourInARow (b :: c :: d :: rest)
  | _ => false

/-- The six canonical subtractive pairs of standard Roman notation
(spec glossary: required subtractive pairs for 4, 9, 40, 90, 400, 900). -/
def canonicalSubtractivePairs : List (Char × Char) :=
  [('I', 'V'), ('I', 'X'), ('X', 'L'), ('X', 'C'), ('C', 'D'), ('C', 'M')]

/-- No non-canonical subtractive form: whenever a letter of strictly
smaller magnitude immediately precedes a larger one (e.g. "VX", "IC"), the
pair is one of the six canonical subtractive pairs. -/
def subtractiveOK : List Char → Bool
  | a :: b :: rest =>
    (!(decide (roman_char_value a < roman_char_value b)) ||
      canonicalSubtractivePairs.contains (a, b)) && subtractiveOK (b :: rest)
  | _ => true

/-- Combined per-input check used by the exhaustive range scan: the
round-trip property and both canonical-form properties of
`convert_to_roman n`. -/
def outputOK (n : Nat) : Bool :=
  let s := convert_to_roman n
  (convert_to_arabic s == (n : Int)) && !(hasFourInARow s.data) &&
    subtractiveOK s.data

/-- Decidable equality for `Except`, used to evaluate the constructor
models on concrete inputs. -/
instance {ε α : Type} [DecidableEq ε] [DecidableEq α] :
    DecidableEq (Except ε α) := fun a b =>
  match a, b with
  | Except.ok x, Except.ok y =>
    if h : x = y then isTrue (by rw [h])
    else isFalse (fun he => h (Except.ok.inj he))
  | Except.error x, Except.error y =>
    if h : x = y then isTrue (by rw [h])
    else isFalse (fun he => h (Except.error.inj he))
  | Except.ok _, Except.error _ => isFalse (fun he => Except.noConfusion he)
  | Except.error _, Except.ok _ => isFalse (fun he => Except.noConfusion he)

/-! ## Helper lemmas -/

theorem whileGe_pair (fuel : Nat) :
    ∀ (v : Nat) (s : String) (n : Nat) (acc : List String),
      n < fuel → 1 ≤ v →
      whileGe fuel v s n acc = (n % v, acc ++ List.replicate (n / v) s) := by
  induction fuel with
  | zero => intro v s n acc h hv; omega
  | succ fuel ih =>
    intro v s n acc h hv
    rw [whileGe]
    by_cases hvn : v ≤ n
    · rw [if_pos hvn, ih v s (n - v) (acc ++ [s]) (by omega) hv]
      rw [Nat.mod_eq_sub_mod hvn]
      rw [Nat.div_eq_sub_div (by omega) hvn]
      rw [List.replicate_succ]
      simp
    · rw [if_neg hvn]
      rw [Nat.mod_eq_of_lt (by omega), Nat.div_eq_of_lt (by omega)]
      simp

theorem whileGe_fst (fuel v : Nat) (s : String) (n : Nat) (acc : List String)
    (h : n < fuel) (hv : 1 ≤ v) : (whileGe fuel v s n acc).1 = n % v := by
  rw [whileGe_pair fuel v s n acc h hv]

theorem sortedBreakpoints_eq :
    sortedBreakpoints =
      [(1000, "M"), (900, "CM"), (500, "D"), (400, "CD"), (100, "C"),
       (90, "XC"), (50, "L"), (40, "XL"), (10, "X"), (9, "IX"), (5, "V"),
       (4, "IV"), (1, "I")] := by
  rfl

theorem greedy_fold_fst (n : Nat) : (greedy_fold n).1 = 0 := by
  unfold greedy_fold
  rw [sortedBreakpoints_eq]
  simp only [List.foldl]
  rw [whileGe_fst _ 1 "I" _ _ (Nat.lt_succ_self _) (le_refl 1)]
  exact Nat.mod_one _

theorem lookup_eq_none_of_beq_false (s : String) (l : List (String × Nat))
    (h : ∀ p, p ∈ l → (s == p.1) = false) : l.lookup s = none := by
  induction l with
  | nil => rfl
  | cons p ps ih =>
    simp only [List.lookup, h p (List.mem_cons_self p ps)]
    exact ih (fun q hq => h q (List.mem_cons_of_mem p hq))

theorem roman_char_value_default (c : Char) (hc : c ∉ romanLetters) :
    roman_char_value c = 0 := by
  have hne : ∀ p, p ∈ ROMAN_TO_ARABIC → (String.singleton c == p.1) = false := by
    intro p hp
    apply beq_eq_false_iff_ne.mpr
    intro he
    have hd := congrArg String.data he
    simp only [String.singleton] at hd
    fin_cases hp <;> simp_all <;> exact hc (by simp [romanLetters])
  rw [roman_char_value, lookup_eq_none_of_beq_false _ _ hne]
  rfl

set_option maxRecDepth 20000 in
theorem outputOK_chunk1 : (List.range' 1 1000).all outputOK = true := by rfl

set_option maxRecDepth 20000 in
theorem outputOK_chunk2 : (List.range' 1001 1000).all outputOK = true := by rfl

set_option maxRecDepth 20000 in
theorem outputOK_chunk3 : (List.range' 2001 1000).all outputOK = true := by rfl

set_option maxRecDepth 20000 in
theorem outputOK_chunk4 : (List.range' 3001 999).all outputOK = true := by rfl

theorem outputOK_true (n : Nat) (h1 : 1 ≤ n) (h2 : n ≤ 3999) :
    outputOK n = true := by
  by_cases ha : n ≤ 1000
  · exact List.all_eq_true.mp outputOK_chunk1 n (List.mem_range'_1.mpr ⟨h1, by omega⟩)
  · by_cases hb : n ≤ 2000
    · exact List.all_eq_true.mp outputOK_chunk2 n
        (List.mem_range'_1.mpr ⟨by omega, by omega⟩)
    · by_cases hcc : n ≤ 3000
      · exact List.all_eq_true.mp outputOK_chunk3 n
          (List.mem_range'_1.mpr ⟨by omega, by omega⟩)
      · exact List.all_eq_true.mp outputOK_chunk4 n
          (List.mem_range'_1.mpr ⟨by omega, by omega⟩)

/-! ## Claim theorems -/

/-- C1: for every integer n with 1 ≤ n ≤ 3999, converting n to a Roman
numeral with the greedy Arabic→Roman algorithm and converting the result
back with the right-to-left Roman→Arabic scan yields n again. -/
theorem claim_c1_roundtrip (n : Nat) (h1 : 1 ≤ n) (h2 : n ≤ 3999) :
    convert_to_arabic (convert_to_roman n) = (n : Int) := by
  have h := outputOK_true n h1 h2
  simp only [outputOK, Bool.and_eq_true, beq_iff_eq] at h
  exact h.1.1

theorem claim_c1_roundtrip_witness :
    convert_to_arabic (convert_to_roman 3724) = (3724 : Int) :=
  claim_c1_roundtrip 3724 (by decide) (by decide)

/-- C2: for every n in [1, 3999] the Arabic→Roman conversion is canonical:
the output never contains four identical letters in a row, and whenever a
letter of strictly smaller magnitude immediately precedes a larger one the
pair is one of the six canonical subtractive pairs (so forms like "IIII",
"VX", "IC" never occur); in particular `toRoman 3724 = "MMMDCCXXIV"`,
`toRoman 1 = "I"` and `toRoman 3999 = "MMMCMXCIX"`. -/
theorem claim_c2_canonical (n : Nat) (h1 : 1 ≤ n) (h2 : n ≤ 3999) :
    hasFourInARow (convert_to_roman n).data = false ∧
    subtractiveOK (convert_to_roman n).data = true ∧
    convert_to_roman 3724 = "MMMDCCXXIV" ∧
    convert_to_roman 1 = "I" ∧
    convert_to_roman 3999 = "MMMCMXCIX" := by
  have h := outputOK_true n h1 h2
  simp only [outputOK, Bool.and_eq_true, Bool.not_eq_true'] at h
  exact ⟨h.1.2, h.2, by decide, by decide, by decide⟩

theorem claim_c2_canonical_witness :
    hasFourInARow (convert_to_roman 1910).data = false :=
  (claim_c2_canonical 1910 (by decide) (by decide)).1

/-- C3: when the store read for the input's key reports the store
unreachable, a network/protocol error, or a parse error, the converter
treats the lookup as a miss: it computes the conversion and returns that
result, and no store failure reaches the caller (`redis_get` absorbs all
three outcomes into `none`, and `converter_init` is total). -/
theorem claim_c3_fail_soft (store : String → ReadOutcome) (measured : Nat)
    (input : ConvInput)
    (h : store (generate_redis_cache_key input) = ReadOutcome.notConnected ∨
         store (generate_redis_cache_key input) = ReadOutcome.storeError ∨
         store (generate_redis_cache_key input) = ReadOutcome.parseError) :
    converter_init store measured input =
      ⟨run_conversion input, measured, true, true⟩ := by
  simp only [converter_init]
  rcases h with h | h | h <;> rw [h] <;> rfl

theorem claim_c3_fail_soft_witness :
    converter_init (fun _ => ReadOutcome.notConnected) 5 (ConvInput.arabic 42) =
      ⟨PyVal.str "XLII", 5, true, true⟩ := by
  rw [claim_c3_fail_soft (fun _ => ReadOutcome.notConnected) 5
    (ConvInput.arabic 42) (Or.inl rfl)]
  decide

/-- C4 (counterexample): a present cache key whose stored value is falsy —
here the int 0 at the key for 42 — is not returned verbatim: the converter
runs the conversion algorithm (`ranConversion = true`), writes the cache,
and sets the duration, contradicting the claim that a present key always
skips conversion. -/
theorem claim_c4_counterexample :
    converter_init (fun _ => ReadOutcome.hit (PyVal.int 0)) 5
      (ConvInput.arabic 42) = ⟨PyVal.str "XLII", 5, true, true⟩ := by
  decide

/-- C4 (amended): for every validated input whose cache key is present with
a truthy stored value (nonzero int / nonempty string), the converter
returns the cached value verbatim, runs no conversion, writes nothing, and
the `duration` field keeps its initial value 0; a falsy cached value is
treated as a miss because of the `if cached_value:` truthiness test. -/
theorem claim_c4_amended (store : String → ReadOutcome) (measured : Nat)
    (input : ConvInput) (v : PyVal)
    (hh : store (generate_redis_cache_key input) = ReadOutcome.hit v)
    (ht : pyTruthy v = true) :
    converter_init store measured input = ⟨v, 0, false, false⟩ := by
  simp only [converter_init]
  rw [hh]
  simp [redis_get, ht]

theorem claim_c4_amended_witness :
    converter_init (fun _ => ReadOutcome.hit (PyVal.str "XLII")) 7
      (ConvInput.arabic 42) = ⟨PyVal.str "XLII", 0, false, false⟩ :=
  claim_c4_amended _ 7 _ (PyVal.str "XLII") rfl (by decide)

/-- C5: `ArabicNumber` construction succeeds exactly when `int()` coercion
succeeds and the value is in [1, 3999]: 0 and 4000 fail with the two
out-of-range `ValueError`s, 1 and 3999 succeed, a non-integer-like string
fails with the `int()` error (the spec's `InvalidType`), and in general
success is equivalent to integer-likeness plus the range bounds. -/
theorem claim_c5_arabic_validation :
    (mkArabicNumber (PyObj.int 0) = Except.error (ValidationError.OutOfRange
      "ArabicNumber must be a positive integer.")) ∧
    (mkArabicNumber (PyObj.int 4000) = Except.error (ValidationError.OutOfRange
      "Currently only Arabic numbers up to 3999 are supported.")) ∧
    mkArabicNumber (PyObj.int 1) = Except.ok 1 ∧
    mkArabicNumber (PyObj.int 3999) = Except.ok 3999 ∧
    (mkArabicNumber (PyObj.str "abc") = Except.error (ValidationError.InvalidType
      "invalid literal for int() with base 10")) ∧
    (∀ x, pyInt x = none →
      mkArabicNumber x = Except.error (ValidationError.InvalidType
        "invalid literal for int() with base 10")) ∧
    (∀ x n, mkArabicNumber x = Except.ok n ↔
      pyInt x = some n ∧ 1 ≤ n ∧ n ≤ 3999) := by
  refine ⟨by decide, by decide, by decide, by decide, by decide, ?_, ?_⟩
  · intro x hx
    simp [mkArabicNumber, hx]
  · intro x n
    unfold mkArabicNumber
    cases hp : pyInt x with
    | none => simp
    | some m =>
      dsimp only
      split_ifs with hl hg <;> simp_all <;> omega

theorem claim_c5_arabic_validation_witness :
    mkArabicNumber (PyObj.str "12") = Except.ok 12 :=
  (claim_c5_arabic_validation.2.2.2.2.2.2 (PyObj.str "12") 12).mpr
    ⟨by decide, by decide, by decide⟩

/-- C6 (counterexample): constructing a `RomanNumber` from the empty string
succeeds — the claim that it fails with a validation error is false on the
code: the pattern matches the empty string and `numbersx.py` contains no
explicit empty-string check. -/
theorem claim_c6_counterexample : mkRomanNumber "" = Except.ok "" := by
  decide

/-- C6 (amended): constructing a `RomanNumber` from the empty string
succeeds: the grammar pattern matches the empty string (all four groups
match zero characters) and there is no explicit rejection, so the empty
string is accepted even though Roman numerals have no representation for
zero. -/
theorem claim_c6_amended :
    mkRomanNumber "" = Except.ok "" ∧ is_valid_roman "" = true ∧
    matchesRomanPattern "" = true := by
  decide

/-- C7: the claim that the global `--no-cache` flag makes the conversion
bypass the cache and always compute directly is false on the code: the flag
only clears the CLI's `_current_cache` global while `Converter` reads the
`cache` module's global. With `CACHE_ENABLED` unset (its default) that
global is `None` and the conversion raises `AttributeError` instead of
returning a result; with a cache object present the converter still
performs the cache read despite the flag, returning a stale hit without
computing. -/
theorem claim_c7_no_cache_bug :
    cli_convert_arabic none true 5 42 =
      Except.error "AttributeError: NoneType object has no attribute get" ∧
    cli_convert_arabic (some fun _ => ReadOutcome.hit (PyVal.str "STALE"))
      true 5 42 = Except.ok ⟨PyVal.str "STALE", 0, false, false⟩ := by
  exact ⟨rfl, by decide⟩

/-- C8: the Roman-numeral validator rejects each non-canonical or malformed
input: "IIII" (non-canonical units), "MMMM" (exceeds the thousands cap of
three), and "ABC" (letters outside the grammar). -/
theorem claim_c8_validation_rejects :
    is_valid_roman "IIII" = false ∧ is_valid_roman "MMMM" = false ∧
    is_valid_roman "ABC" = false := by
  decide

/-- C9: for every n ≥ 1 the greedy loop terminates with remainder 0: the
final remainder of the fold is 0, the breakpoint 1 is in the table, every
breakpoint magnitude is ≥ 1, the 13 breakpoints are iterated in strictly
descending magnitude order, and each iteration of the inner while loop
strictly decreases the remainder. -/
theorem claim_c9_termination (n : Nat) (hn : 1 ≤ n) :
    (greedy_fold n).1 = 0 ∧
    ((1, "I") ∈ sortedBreakpoints) ∧
    (∀ p, p ∈ sortedBreakpoints → 1 ≤ p.1) ∧
    List.Pairwise (fun p q : Nat × String => q.1 < p.1) sortedBreakpoints ∧
    (∀ fuel v s m acc, 1 ≤ v → v ≤ m →
      whileGe (fuel + 1) v s m acc = whileGe fuel v s (m - v) (acc ++ [s]) ∧
        m - v < m) := by
  refine ⟨greedy_fold_fst n, by decide, by decide, by decide, ?_⟩
  intro fuel v s m acc hv hvm
  constructor
  · rw [whileGe, if_pos hvm]
  · omega

theorem claim_c9_termination_witness : (greedy_fold 5).1 = 0 :=
  (claim_c9_termination 5 (by decide)).1

/-- C10: the Roman→Arabic scan is total over every string: it maps the
empty string to 0 instead of failing, characters outside the seven Roman
letters look up to the default magnitude 0, and a character of magnitude 0
leaves the accumulator unchanged at its step. -/
theorem claim_c10_total_scan :
    convert_to_arabic "" = 0 ∧
    (∀ c, c ∉ romanLetters → roman_char_value c = 0) ∧
    (∀ st c, roman_char_value c = 0 → (arabic_step st c).1 = st.1) := by
  refine ⟨by decide, roman_char_value_default, ?_⟩
  intro st c hc
  simp [arabic_step, hc]

theorem claim_c10_total_scan_witness :
    roman_char_value 'Z' = 0 ∧ (arabic_step (7, 5) 'Z').1 = 7 :=
  ⟨claim_c10_total_scan.2.1 'Z' (by decide),
   claim_c10_total_scan.2.2 (7, 5) 'Z'
     (claim_c10_total_scan.2.1 'Z' (by decide))⟩
